import Mathlib

/-!
Verification of the PoeBasicValueEvaluator core (weapon-dps.js, rune-options.js,
weapon-parser.js) against its natural-language specification.

Numbers are modelled as rationals (`ℚ`): the JavaScript source performs only
`+`, `-`, `*`, `/` on finite decimal inputs, and all the specified behaviour is
about exact algebraic relations and comparisons.  Absent optional JS fields
(`x ?? 0`, `?? 5`, `?? 1.5`) are modelled by structure-field defaults.
-/

namespace PoeEval

/-- `WeaponInputs` of weapon-dps.js: every optional field present, with the
source's `??` default as the structure default. -/
structure WeaponInputs where
  basePhysMin : ℚ := 0
  basePhysMax : ℚ := 0
  baseAps : ℚ := 0
  baseCritChance : ℚ := 5
  baseCritMulti : ℚ := 3/2
  baseFireMin : ℚ := 0
  baseFireMax : ℚ := 0
  baseColdMin : ℚ := 0
  baseColdMax : ℚ := 0
  baseLightningMin : ℚ := 0
  baseLightningMax : ℚ := 0
  baseChaosMin : ℚ := 0
  baseChaosMax : ℚ := 0
  flatPhysMin : ℚ := 0
  flatPhysMax : ℚ := 0
  flatFireMin : ℚ := 0
  flatFireMax : ℚ := 0
  flatColdMin : ℚ := 0
  flatColdMax : ℚ := 0
  flatLightningMin : ℚ := 0
  flatLightningMax : ℚ := 0
  flatChaosMin : ℚ := 0
  flatChaosMax : ℚ := 0
  increasedPhys : ℚ := 0
  increasedAttackSpeed : ℚ := 0
  flatCritChance : ℚ := 0
  quality : ℚ := 0


/-- `WeaponOutputs` of weapon-dps.js: the exact set of fields the function
returns (note: no elemental range fields). -/
structure WeaponOutputs where
  physDps : ℚ
  eleDps : ℚ
  totalDps : ℚ
  totalDpsWithCrit : ℚ
  physMin : ℚ
  physMax : ℚ
  aps : ℚ


/-- `calcWeaponDps` (weapon-dps.js lines 114-161), translated statement by
statement. -/
def calcWeaponDps (input : WeaponInputs) : WeaponOutputs :=
  let flatPhysMin := input.flatPhysMin + input.basePhysMin
  let flatPhysMax := input.flatPhysMax + input.basePhysMax
  let increasedPhysMult := 1 + input.increasedPhys / 100
  let physMin0 := flatPhysMin * increasedPhysMult
  let physMax0 := flatPhysMax * increasedPhysMult
  let qualityMult := 1 + input.quality / 100
  let physMin := physMin0 * qualityMult
  let physMax := physMax0 * qualityMult
  let fireMin := input.baseFireMin + input.flatFireMin
  let fireMax := input.baseFireMax + input.flatFireMax
  let coldMin := input.baseColdMin + input.flatColdMin
  let coldMax := input.baseColdMax + input.flatColdMax
  let lightningMin := input.baseLightningMin + input.flatLightningMin
  let lightningMax := input.baseLightningMax + input.flatLightningMax
  let chaosMin := input.baseChaosMin + input.flatChaosMin
  let chaosMax := input.baseChaosMax + input.flatChaosMax
  let aps := input.baseAps * (1 + input.increasedAttackSpeed / 100)
  let avgPhys := (physMin + physMax) / 2
  let avgFire := (fireMin + fireMax) / 2
  let avgCold := (coldMin + coldMax) / 2
  let avgLightning := (lightningMin + lightningMax) / 2
  let avgChaos := (chaosMin + chaosMax) / 2
  let physDps := avgPhys * aps
  let eleDps := (avgFire + avgCold + avgLightning + avgChaos) * aps
  let totalDps := physDps + eleDps
  let critChance := (input.baseCritChance + input.flatCritChance) / 100
  let critMulti := input.baseCritMulti
  let critFactor := 1 + critChance * (critMulti - 1)
  let totalDpsWithCrit := totalDps * critFactor
  { physDps := physDps
    eleDps := eleDps
    totalDps := totalDps
    totalDpsWithCrit := totalDpsWithCrit
    physMin := physMin
    physMax := physMax
    aps := aps }

/-- `FinalWeaponStats` of weapon-dps.js: displayed final values; optional
elemental fields default to 0 as in the source's `?? 0` reads. -/
structure FinalWeaponStats where
  physMin : ℚ := 0
  physMax : ℚ := 0
  aps : ℚ := 0
  fireMin : ℚ := 0
  fireMax : ℚ := 0
  coldMin : ℚ := 0
  coldMax : ℚ := 0
  lightningMin : ℚ := 0
  lightningMax : ℚ := 0
  chaosMin : ℚ := 0
  chaosMax : ℚ := 0


/-- `KnownModifiers` of weapon-dps.js: all fields optional, defaulting to 0. -/
structure KnownModifiers where
  flatPhysMin : ℚ := 0
  flatPhysMax : ℚ := 0
  flatFireMin : ℚ := 0
  flatFireMax : ℚ := 0
  flatColdMin : ℚ := 0
  flatColdMax : ℚ := 0
  flatLightningMin : ℚ := 0
  flatLightningMax : ℚ := 0
  flatChaosMin : ℚ := 0
  flatChaosMax : ℚ := 0
  increasedPhys : ℚ := 0
  increasedAttackSpeed : ℚ := 0
  quality : ℚ := 0


/-- `BaseWeaponStats` of weapon-dps.js. -/
structure BaseWeaponStats where
  basePhysMin : ℚ := 0
  basePhysMax : ℚ := 0
  baseAps : ℚ := 0
  baseFireMin : ℚ := 0
  baseFireMax : ℚ := 0
  baseColdMin : ℚ := 0
  baseColdMax : ℚ := 0
  baseLightningMin : ℚ := 0
  baseLightningMax : ℚ := 0
  baseChaosMin : ℚ := 0
  baseChaosMax : ℚ := 0


/-- `reverseEngineerBase` (weapon-dps.js lines 187-227), translated statement
by statement.  Note the source performs no check on `physScale`; in ℚ a
division by zero yields 0. -/
def reverseEngineerBase (final : FinalWeaponStats) (mods : KnownModifiers) :
    BaseWeaponStats :=
  let increasedPhys := mods.increasedPhys
  let quality := mods.quality
  let increasedAttackSpeed := mods.increasedAttackSpeed
  let physScale := (1 + increasedPhys / 100) * (1 + quality / 100)
  let apsScale := 1 + increasedAttackSpeed / 100
  { basePhysMin := final.physMin / physScale - mods.flatPhysMin
    basePhysMax := final.physMax / physScale - mods.flatPhysMax
    baseAps := final.aps / apsScale
    baseFireMin := final.fireMin - mods.flatFireMin
    baseFireMax := final.fireMax - mods.flatFireMax
    baseColdMin := final.coldMin - mods.flatColdMin
    baseColdMax := final.coldMax - mods.flatColdMax
    baseLightningMin := final.lightningMin - mods.flatLightningMin
    baseLightningMax := final.lightningMax - mods.flatLightningMax
    baseChaosMin := final.chaosMin - mods.flatChaosMin
    baseChaosMax := final.chaosMax - mods.flatChaosMax }

/-- Passing a `WeaponOutputs` object where a `FinalWeaponStats` is expected
(as the round-trip does): the elemental fields are absent on the output
object, so the `?? 0` reads in `reverseEngineerBase` see 0. -/
def outputAsFinal (o : WeaponOutputs) : FinalWeaponStats :=
  { physMin := o.physMin
    physMax := o.physMax
    aps := o.aps }

/-- Building the `calcWeaponDps` input from a base-stats record plus a
modifier record, exactly the field passing done in `reverseAndVerify`
(weapon-dps.js lines 239-264) and in the Optimizer's candidate evaluation. -/
def inputsOf (base : BaseWeaponStats) (mods : KnownModifiers) : WeaponInputs :=
  { basePhysMin := base.basePhysMin
    basePhysMax := base.basePhysMax
    baseAps := base.baseAps
    baseFireMin := base.baseFireMin
    baseFireMax := base.baseFireMax
    baseColdMin := base.baseColdMin
    baseColdMax := base.baseColdMax
    baseLightningMin := base.baseLightningMin
    baseLightningMax := base.baseLightningMax
    baseChaosMin := base.baseChaosMin
    baseChaosMax := base.baseChaosMax
    flatPhysMin := mods.flatPhysMin
    flatPhysMax := mods.flatPhysMax
    flatFireMin := mods.flatFireMin
    flatFireMax := mods.flatFireMax
    flatColdMin := mods.flatColdMin
    flatColdMax := mods.flatColdMax
    flatLightningMin := mods.flatLightningMin
    flatLightningMax := mods.flatLightningMax
    flatChaosMin := mods.flatChaosMin
    flatChaosMax := mods.flatChaosMax
    increasedPhys := mods.increasedPhys
    increasedAttackSpeed := mods.increasedAttackSpeed
    quality := mods.quality }

/-!
### Rune optimizer (rune-options.js)
-/

/-- The four entries of `RUNE_OPTIONS` (rune-options.js lines 15-38), each as a
modifier delta: only the fields the rune lists are non-zero.  `id`/`name` are
not needed by any claim. -/
def greaterIron : KnownModifiers := { increasedPhys := 18 }

/-- Thane Myrk's Rune of Summer: flat fire 23-34 per unit. -/
def thaneSummer : KnownModifiers := { flatFireMin := 23, flatFireMax := 34 }

/-- Thane Leld's Rune of Spring: flat lightning 1-60 per unit. -/
def thaneSpring : KnownModifiers := { flatLightningMin := 1, flatLightningMax := 60 }

/-- Soul Core of Quipolatl: +5% increased attack speed per unit. -/
def quipolatl : KnownModifiers := { increasedAttackSpeed := 5 }

/-- `applyRuneToMods` (rune-options.js lines 44-56): add `count` copies of every
numeric field of the rune to the record.  Fields the rune does not carry are 0
in its delta, so the field-wise sum is exactly the source's per-key loop (and
`count = 0` adds nothing, like the source's early return). -/
def applyRuneToMods (mods rune : KnownModifiers) (count : ℕ) : KnownModifiers :=
  { flatPhysMin := mods.flatPhysMin + rune.flatPhysMin * count
    flatPhysMax := mods.flatPhysMax + rune.flatPhysMax * count
    flatFireMin := mods.flatFireMin + rune.flatFireMin * count
    flatFireMax := mods.flatFireMax + rune.flatFireMax * count
    flatColdMin := mods.flatColdMin + rune.flatColdMin * count
    flatColdMax := mods.flatColdMax + rune.flatColdMax * count
    flatLightningMin := mods.flatLightningMin + rune.flatLightningMin * count
    flatLightningMax := mods.flatLightningMax + rune.flatLightningMax * count
    flatChaosMin := mods.flatChaosMin + rune.flatChaosMin * count
    flatChaosMax := mods.flatChaosMax + rune.flatChaosMax * count
    increasedPhys := mods.increasedPhys + rune.increasedPhys * count
    increasedAttackSpeed := mods.increasedAttackSpeed + rune.increasedAttackSpeed * count
    quality := mods.quality + rune.quality * count }

/-- The `modsWithoutRunes` record built at the top of `computeBestRuneVariant`
(rune-options.js lines 71-85): field-wise `mods - runeMods`, except `quality`
which is taken from `mods` alone. -/
def modsWithoutRunes (mods runeMods : KnownModifiers) : KnownModifiers :=
  { flatPhysMin := mods.flatPhysMin - runeMods.flatPhysMin
    flatPhysMax := mods.flatPhysMax - runeMods.flatPhysMax
    flatFireMin := mods.flatFireMin - runeMods.flatFireMin
    flatFireMax := mods.flatFireMax - runeMods.flatFireMax
    flatColdMin := mods.flatColdMin - runeMods.flatColdMin
    flatColdMax := mods.flatColdMax - runeMods.flatColdMax
    flatLightningMin := mods.flatLightningMin - runeMods.flatLightningMin
    flatLightningMax := mods.flatLightningMax - runeMods.flatLightningMax
    flatChaosMin := mods.flatChaosMin - runeMods.flatChaosMin
    flatChaosMax := mods.flatChaosMax - runeMods.flatChaosMax
    increasedPhys := mods.increasedPhys - runeMods.increasedPhys
    increasedAttackSpeed := mods.increasedAttackSpeed - runeMods.increasedAttackSpeed
    quality := mods.quality }

/-- One candidate rune assignment: unit counts per rune type, in the field
order of the source's `best.rune.configuration` object. -/
structure RuneConfiguration where
  iron : ℕ
  summer : ℕ
  spring : ℕ
  quip : ℕ
  deriving DecidableEq

/-- The `modsWithRunes` record built for one candidate (rune-options.js lines
105-118): apply iron, summer, spring, quip in that order. -/
def modsWithRunes (m : KnownModifiers) (cfg : RuneConfiguration) : KnownModifiers :=
  applyRuneToMods
    (applyRuneToMods
      (applyRuneToMods
        (applyRuneToMods m greaterIron cfg.iron)
        thaneSummer cfg.summer)
      thaneSpring cfg.spring)
    quipolatl cfg.quip

/-- The `best` record of `computeBestRuneVariant` (configuration, its dps, and
the modifier record including the runes). -/
structure BestVariant where
  config : RuneConfiguration
  dps : ℚ
  modsWithRune : KnownModifiers

/-- The candidate enumeration of `computeBestRuneVariant` (rune-options.js
lines 99-103), in exact loop order: `springCount` from 0 to `min 1 S`,
`summerCount` from 0 to `min 1 (S - springCount)`, `ironCount` from 0 to the
remainder, `quipCount` the rest of the remainder. -/
def runeConfigs (runeSlotCount : ℕ) : List RuneConfiguration :=
  (List.range (min 1 runeSlotCount + 1)).flatMap fun springCount =>
    (List.range (min 1 (runeSlotCount - springCount) + 1)).flatMap fun summerCount =>
      (List.range (runeSlotCount - springCount - summerCount + 1)).map fun ironCount =>
        { iron := ironCount
          summer := summerCount
          spring := springCount
          quip := runeSlotCount - springCount - summerCount - ironCount }

/-- DPS of one candidate configuration: runes applied to the stripped modifier
record, evaluated through the supplied calculator on the input object built at
rune-options.js lines 120-133. -/
def candidateDps (base : BaseWeaponStats) (mwor : KnownModifiers)
    (calcDps : WeaponInputs → WeaponOutputs) (cfg : RuneConfiguration) : ℚ :=
  (calcDps (inputsOf base (modsWithRunes mwor cfg))).totalDps

/-- The body of the candidate loop (rune-options.js lines 135-152): keep the
incumbent unless the new candidate's dps is strictly greater (`dps > best.dps`),
so the first-seen configuration wins ties. -/
def runeStep (base : BaseWeaponStats) (mwor : KnownModifiers)
    (calcDps : WeaponInputs → WeaponOutputs) :
    Option BestVariant → RuneConfiguration → Option BestVariant :=
  fun best cfg =>
    let dps := candidateDps base mwor calcDps cfg
    match best with
    | none => some ⟨cfg, dps, modsWithRunes mwor cfg⟩
    | some b => if b.dps < dps then some ⟨cfg, dps, modsWithRunes mwor cfg⟩ else best

/-- `computeBestRuneVariant` (rune-options.js lines 68-158).  The socket count
is a natural number (the source rejects `runeSlotCount < 1`, which with the
falsy-0 check means every count below 1); `calcDps` is the caller-supplied
calculator, `calcWeaponDps` in the extension itself. -/
def computeBestRuneVariant (base : BaseWeaponStats) (mods runeMods : KnownModifiers)
    (runeSlotCount : ℕ) (calcDps : WeaponInputs → WeaponOutputs) :
    Option BestVariant :=
  if runeSlotCount < 1 then none
  else
    (runeConfigs runeSlotCount).foldl
      (runeStep base (modsWithoutRunes mods runeMods) calcDps) none

/-!
### Modifier-text extraction (weapon-parser.js, `parseModText`)

The regular expressions of `MOD_REGEX` (weapon-parser.js lines 98-106) and the
entity-exclusion test on line 117 are embedded as executable matchers over
`List Char`.  Each regex is a concatenation of: a decimal number
`(\d+(?:\.\d+)?)`, whitespace (`\s*` or `\s+`), literal `%`, and
case-insensitive literal words; for such patterns the backtracking JS
semantics coincides with deterministic maximal-munch scanning from each
position (a failed optional fraction leaves a `.` that also fails the
no-fraction alternative).  `\s` is modelled by its ASCII members.
-/

/-- ASCII members of the JS regex class `\s`. -/
def jsSpace (c : Char) : Bool :=
  c = ' ' || c = '\t' || c = '\n' || c = '\r' || c = '\x0b' || c = '\x0c'

/-- Case-insensitive character comparison, as the regex `i` flag gives for
ASCII letters. -/
def charCI (a b : Char) : Bool := a.toLower = b.toLower

/-- Match a literal word case-insensitively at the head; return the rest. -/
def litCI : List Char → List Char → Option (List Char)
  | [], s => some s
  | _ :: _, [] => none
  | p :: ps, c :: cs => if charCI p c then litCI ps cs else none

/-- Match a literal word case-sensitively at the head; return the rest
(the exclusion regex on line 117 has no `i` flag). -/
def litCS : List Char → List Char → Option (List Char)
  | [], s => some s
  | _ :: _, [] => none
  | p :: ps, c :: cs => if p = c then litCS ps cs else none

/-- Numeric value of a digit run. -/
def digitsVal (ds : List Char) : ℕ :=
  ds.foldl (fun acc c => 10 * acc + (c.toNat - '0'.toNat)) 0

/-- `(\d+(?:\.\d+)?)` at the head, with `parseFloat` of the matched group:
one or more digits, optionally a point followed by one or more digits. -/
def parseDecimalAt (s : List Char) : Option (ℚ × List Char) :=
  let ds := s.takeWhile Char.isDigit
  let r := s.dropWhile Char.isDigit
  if ds.isEmpty then none
  else
    match r with
    | '.' :: r2 =>
      let fs := r2.takeWhile Char.isDigit
      if fs.isEmpty then some ((digitsVal ds : ℚ), r)
      else
        some ((digitsVal ds : ℚ) + (digitsVal fs : ℚ) / (10 : ℚ) ^ fs.length,
          r2.dropWhile Char.isDigit)
    | _ => some ((digitsVal ds : ℚ), r)

/-- `\s*`: drop any whitespace. -/
def skipSpaces (s : List Char) : List Char := s.dropWhile jsSpace

/-- `\s+`: at least one whitespace character, consumed greedily. -/
def spaces1 (s : List Char) : Option (List Char) :=
  match s with
  | c :: cs => if jsSpace c then some (skipSpaces cs) else none
  | [] => none

/-- `(\d+(?:\.\d+)?)\s*%\s*increased\s+<w1>\s+<w2>` (case-insensitive),
anchored at the head; returns the captured number. -/
def matchPctIncreasedAt (w1 w2 : List Char) (s : List Char) : Option ℚ := do
  let (n, r1) ← parseDecimalAt s
  let r2 := skipSpaces r1
  match r2 with
  | '%' :: r3 => do
    let r4 := skipSpaces r3
    let r5 ← litCI ['i','n','c','r','e','a','s','e','d'] r4
    let r6 ← spaces1 r5
    let r7 ← litCI w1 r6
    let r8 ← spaces1 r7
    let _ ← litCI w2 r8
    some n
  | _ => none

/-- `Adds\s+(\d+...)\s+to\s+(\d+...)\s+<elem>\s+Damage` (case-insensitive),
anchored at the head; returns the two captured numbers. -/
def matchAddsAt (elem : List Char) (s : List Char) : Option (ℚ × ℚ) := do
  let r1 ← litCI ['a','d','d','s'] s
  let r2 ← spaces1 r1
  let (n1, r3) ← parseDecimalAt r2
  let r4 ← spaces1 r3
  let r5 ← litCI ['t','o'] r4
  let r6 ← spaces1 r5
  let (n2, r7) ← parseDecimalAt r6
  let r8 ← spaces1 r7
  let r9 ← litCI elem r8
  let r10 ← spaces1 r9
  let _ ← litCI ['d','a','m','a','g','e'] r10
  some (n1, n2)

/-- Unanchored regex search: try the anchored matcher at every position, left
to right, returning the first (leftmost) result — JS `String.prototype.match`
semantics for these patterns. -/
def findFirstSome {α : Type} (f : List Char → Option α) : List Char → Option α
  | [] => f []
  | c :: cs =>
    match f (c :: cs) with
    | some v => some v
    | none => findFirstSome f cs

/-- Unanchored boolean search (for `RegExp.prototype.test`). -/
def findFirstB (f : List Char → Bool) : List Char → Bool
  | [] => f []
  | c :: cs => f (c :: cs) || findFirstB f cs

/-- `have\s+\d` anchored at the head (case-sensitive). -/
def matchHaveNAt (s : List Char) : Bool :=
  match litCS ['h','a','v','e'] s with
  | some r =>
    match spaces1 r with
    | some r2 =>
      match r2 with
      | c :: _ => c.isDigit
      | [] => false
    | none => false
  | none => false

/-- The exclusion test of weapon-parser.js line 117:
`/Companions|Minions|Allies|have\s+\d/.test(text)` (case-sensitive). -/
def excludedEntity (s : List Char) : Bool :=
  findFirstB (fun t => (litCS ['C','o','m','p','a','n','i','o','n','s'] t).isSome) s ||
  findFirstB (fun t => (litCS ['M','i','n','i','o','n','s'] t).isSome) s ||
  findFirstB (fun t => (litCS ['A','l','l','i','e','s'] t).isSome) s ||
  findFirstB matchHaveNAt s

/-- The partial record `out` built by `parseModText`: only matched fields are
present. -/
structure ParsedMods where
  increasedPhys : Option ℚ := none
  increasedAttackSpeed : Option ℚ := none
  flatPhysMin : Option ℚ := none
  flatPhysMax : Option ℚ := none
  flatFireMin : Option ℚ := none
  flatFireMax : Option ℚ := none
  flatColdMin : Option ℚ := none
  flatColdMax : Option ℚ := none
  flatLightningMin : Option ℚ := none
  flatLightningMax : Option ℚ := none
  flatChaosMin : Option ℚ := none
  flatChaosMax : Option ℚ := none

/-- The anchored matcher for `MOD_REGEX.increasedAttackSpeed`. -/
def matchIncreasedAttackSpeedAt : List Char → Option ℚ :=
  matchPctIncreasedAt ['a','t','t','a','c','k'] ['s','p','e','e','d']

/-- `parseModText` (weapon-parser.js lines 108-152) on the character list of
the line.  Each `MOD_REGEX` entry is searched independently; the attack-speed
value is kept only when the entity-exclusion test fails, exactly the
`mIncAps && !/Companions|Minions|Allies|have\s+\d/.test(text)` condition. -/
def parseModTextL (s : List Char) : ParsedMods :=
  let mIncPhys := findFirstSome
    (matchPctIncreasedAt ['p','h','y','s','i','c','a','l'] ['d','a','m','a','g','e']) s
  let mIncAps := findFirstSome matchIncreasedAttackSpeedAt s
  let mFlatPhys := findFirstSome (matchAddsAt ['p','h','y','s','i','c','a','l']) s
  let mFlatFire := findFirstSome (matchAddsAt ['f','i','r','e']) s
  let mFlatCold := findFirstSome (matchAddsAt ['c','o','l','d']) s
  let mFlatLightning := findFirstSome (matchAddsAt ['l','i','g','h','t','n','i','n','g']) s
  let mFlatChaos := findFirstSome (matchAddsAt ['c','h','a','o','s']) s
  { increasedPhys := mIncPhys
    increasedAttackSpeed :=
      match mIncAps with
      | some n => if excludedEntity s then none else some n
      | none => none
    flatPhysMin := mFlatPhys.map Prod.fst
    flatPhysMax := mFlatPhys.map Prod.snd
    flatFireMin := mFlatFire.map Prod.fst
    flatFireMax := mFlatFire.map Prod.snd
    flatColdMin := mFlatCold.map Prod.fst
    flatColdMax := mFlatCold.map Prod.snd
    flatLightningMin := mFlatLightning.map Prod.fst
    flatLightningMax := mFlatLightning.map Prod.snd
    flatChaosMin := mFlatChaos.map Prod.fst
    flatChaosMax := mFlatChaos.map Prod.snd }

/-- `parseModText` on a string. -/
def parseModText (s : String) : ParsedMods := parseModTextL s.data

/-- A plain attack-speed affix line (sample input). -/
def sampleAttackSpeedLine : String := "10% increased Attack Speed"

/-- An attack-speed line granted to companions (sample excluded input). -/
def sampleCompanionLine : String := "Companions have 10% increased Attack Speed"

end PoeEval

/-!
## Helper lemmas

Shared facts about the embedded functions, used by several claim theorems.
-/

namespace PoeEval

/-- Closed form of `totalDps`: per-hit physical average times both multipliers
plus the elemental per-hit sum, times the final attack rate. -/
theorem totalDps_formula (i : WeaponInputs) :
    (calcWeaponDps i).totalDps =
      ((i.flatPhysMin + i.basePhysMin + i.flatPhysMax + i.basePhysMax) / 2 *
          ((1 + i.increasedPhys / 100) * (1 + i.quality / 100)) +
        ((i.baseFireMin + i.flatFireMin + i.baseFireMax + i.flatFireMax) +
            (i.baseColdMin + i.flatColdMin + i.baseColdMax + i.flatColdMax) +
            (i.baseLightningMin + i.flatLightningMin + i.baseLightningMax + i.flatLightningMax) +
            (i.baseChaosMin + i.flatChaosMin + i.baseChaosMax + i.flatChaosMax)) / 2) *
      (i.baseAps * (1 + i.increasedAttackSpeed / 100)) := by
  simp only [calcWeaponDps]
  ring

/-- Monotonicity workhorse: the dps closed form is monotone when every factor
is non-negative and grows. -/
theorem dps_mono_aux {F E P Q A F' E' P' Q' A' : ℚ}
    (hF : 0 ≤ F) (hE : 0 ≤ E) (hP : 0 ≤ P) (hQ : 0 ≤ Q) (hA : 0 ≤ A)
    (hF' : F ≤ F') (hE' : E ≤ E') (hP' : P ≤ P') (hQ' : Q ≤ Q') (hA' : A ≤ A') :
    (F / 2 * (P * Q) + E / 2) * A ≤ (F' / 2 * (P' * Q') + E' / 2) * A' := by
  have hPQ : P * Q ≤ P' * Q' := mul_le_mul hP' hQ' hQ (hP.trans hP')
  have h1 : F * (P * Q) ≤ F' * (P' * Q') :=
    mul_le_mul hF' hPQ (mul_nonneg hP hQ) (hF.trans hF')
  have h2 : F / 2 * (P * Q) + E / 2 ≤ F' / 2 * (P' * Q') + E' / 2 := by nlinarith
  have h3 : 0 ≤ F / 2 * (P * Q) + E / 2 := by
    have := mul_nonneg hF (mul_nonneg hP hQ)
    nlinarith
  exact mul_le_mul h2 hA' hA (h3.trans h2)

/-- One optimizer step starting from no incumbent keeps the candidate. -/
theorem runeStep_none (base : BaseWeaponStats) (mwor : KnownModifiers)
    (calcDps : WeaponInputs → WeaponOutputs) (cfg : RuneConfiguration) :
    runeStep base mwor calcDps none cfg =
      some ⟨cfg, candidateDps base mwor calcDps cfg, modsWithRunes mwor cfg⟩ := rfl

/-- Folding the optimizer step over any candidate list, starting from an
incumbent: the result exists, its dps dominates the incumbent and every listed
candidate, and it is either the incumbent or one of the listed candidates. -/
theorem foldl_runeStep_some (base : BaseWeaponStats) (mwor : KnownModifiers)
    (calcDps : WeaponInputs → WeaponOutputs) (l : List RuneConfiguration)
    (b : BestVariant) :
    ∃ b', l.foldl (runeStep base mwor calcDps) (some b) = some b' ∧
      b.dps ≤ b'.dps ∧
      (∀ cfg ∈ l, candidateDps base mwor calcDps cfg ≤ b'.dps) ∧
      (b' = b ∨ ∃ cfg ∈ l,
        b' = ⟨cfg, candidateDps base mwor calcDps cfg, modsWithRunes mwor cfg⟩) := by
  induction l generalizing b with
  | nil => exact ⟨b, rfl, le_refl _, by simp, Or.inl rfl⟩
  | cons c t ih =>
    by_cases h : b.dps < candidateDps base mwor calcDps c
    · obtain ⟨b', hfold, hle, hall, hprov⟩ :=
        ih ⟨c, candidateDps base mwor calcDps c, modsWithRunes mwor c⟩
      refine ⟨b', ?_, ?_, ?_, ?_⟩
      · rw [List.foldl_cons]
        show List.foldl _ (runeStep base mwor calcDps (some b) c) t = some b'
        rw [show runeStep base mwor calcDps (some b) c =
            some ⟨c, candidateDps base mwor calcDps c, modsWithRunes mwor c⟩ by
          simp [runeStep, h]]
        exact hfold
      · exact le_trans (le_of_lt h) hle
      · intro cfg hcfg
        rcases List.mem_cons.mp hcfg with rfl | hmem
        · exact hle
        · exact hall cfg hmem
      · rcases hprov with rfl | ⟨cfg, hmem, heq⟩
        · exact Or.inr ⟨c, List.mem_cons_self c t, rfl⟩
        · exact Or.inr ⟨cfg, List.mem_cons_of_mem c hmem, heq⟩
    · obtain ⟨b', hfold, hle, hall, hprov⟩ := ih b
      refine ⟨b', ?_, hle, ?_, ?_⟩
      · rw [List.foldl_cons]
        show List.foldl _ (runeStep base mwor calcDps (some b) c) t = some b'
        rw [show runeStep base mwor calcDps (some b) c = some b by
          simp [runeStep, h]]
        exact hfold
      · intro cfg hcfg
        rcases List.mem_cons.mp hcfg with rfl | hmem
        · exact le_trans (not_lt.mp h) hle
        · exact hall cfg hmem
      · rcases hprov with rfl | ⟨cfg, hmem, heq⟩
        · exact Or.inl rfl
        · exact Or.inr ⟨cfg, List.mem_cons_of_mem c hmem, heq⟩

/-- Every full assignment (counts summing to the socket count, the two
flat-elemental runes each at most once) is enumerated. -/
theorem mem_runeConfigs (S : ℕ) (cfg : RuneConfiguration)
    (hspring : cfg.spring ≤ 1) (hsummer : cfg.summer ≤ 1)
    (hsum : cfg.iron + cfg.summer + cfg.spring + cfg.quip = S) :
    cfg ∈ runeConfigs S := by
  obtain ⟨iron, summer, spring, quip⟩ := cfg
  simp only at hspring hsummer hsum
  simp only [runeConfigs, List.mem_flatMap, List.mem_map, List.mem_range]
  refine ⟨spring, by omega, summer, by omega, iron, by omega, ?_⟩
  dsimp only
  simp only [RuneConfiguration.mk.injEq, true_and]
  omega

/-- Conversely, every enumerated assignment is full and respects the caps. -/
theorem sum_of_mem_runeConfigs (S : ℕ) (cfg : RuneConfiguration)
    (h : cfg ∈ runeConfigs S) :
    cfg.spring ≤ 1 ∧ cfg.summer ≤ 1 ∧
      cfg.iron + cfg.summer + cfg.spring + cfg.quip = S := by
  simp only [runeConfigs, List.mem_flatMap, List.mem_map, List.mem_range] at h
  obtain ⟨spring, hspring, summer, hsummer, iron, hiron, rfl⟩ := h
  simp only
  omega

/-- The enumeration is never empty once there is a socket. -/
theorem runeConfigs_ne_nil (S : ℕ) (_hS : 1 ≤ S) : runeConfigs S ≠ [] := by
  intro h
  have hmem : (⟨0, 0, 0, S⟩ : RuneConfiguration) ∈ runeConfigs S :=
    mem_runeConfigs S ⟨0, 0, 0, S⟩ (by dsimp only; omega) (by dsimp only; omega)
      (by dsimp only; omega)
  rw [h] at hmem
  exact List.not_mem_nil _ hmem

/-- Size of the enumeration: exactly `4 * S` candidates for `S ≥ 1` sockets. -/
theorem runeConfigs_length (S : ℕ) (hS : 1 ≤ S) : (runeConfigs S).length = 4 * S := by
  match S, hS with
  | 1, _ => rfl
  | (n + 2), _ =>
    have h1 : min 1 (n + 2) = 1 := by omega
    have h2 : min 1 (n + 2 - 1) = 1 := by omega
    simp only [runeConfigs, Nat.sub_zero, h1, h2, show (1 + 1 : ℕ) = 2 from rfl,
      show List.range 2 = [0, 1] from rfl, List.flatMap_cons, List.flatMap_nil,
      List.append_nil, List.length_append, List.length_flatMap, List.length_map,
      List.length_range, List.map_cons, List.map_nil, List.sum_cons, List.sum_nil,
      Function.comp_apply, Function.comp]
    omega

/-- The enumerated configurations are pairwise distinct for every socket
count: within one `(spring, summer)` block the iron counts differ, and across
blocks the `spring` or `summer` component differs. -/
theorem runeConfigs_nodup (S : ℕ) : (runeConfigs S).Nodup := by
  unfold runeConfigs
  rw [List.nodup_flatMap]
  constructor
  · intro spring _
    rw [List.nodup_flatMap]
    constructor
    · intro summer _
      refine List.Nodup.map ?_ (List.nodup_range _)
      intro x y hxy
      simpa using congrArg RuneConfiguration.iron hxy
    · refine List.Pairwise.imp ?_ (List.nodup_range _)
      intro s t hst cfg hs ht
      simp only [List.mem_map, List.mem_range] at hs ht
      obtain ⟨i1, _, h1⟩ := hs
      obtain ⟨i2, _, h2⟩ := ht
      exact hst (by simpa using congrArg RuneConfiguration.summer (h1.trans h2.symm))
  · refine List.Pairwise.imp ?_ (List.nodup_range _)
    intro s t hst cfg hs ht
    simp only [List.mem_flatMap, List.mem_map, List.mem_range] at hs ht
    obtain ⟨su1, _, i1, _, h1⟩ := hs
    obtain ⟨su2, _, i2, _, h2⟩ := ht
    exact hst (by simpa using congrArg RuneConfiguration.spring (h1.trans h2.symm))

/-- Full specification of `computeBestRuneVariant` for `S ≥ 1`: a result is
produced, it dominates every enumerated candidate, and it is one of them. -/
theorem computeBestRuneVariant_spec (base : BaseWeaponStats)
    (mods runeMods : KnownModifiers) (S : ℕ)
    (calcDps : WeaponInputs → WeaponOutputs) (hS : 1 ≤ S) :
    ∃ b, computeBestRuneVariant base mods runeMods S calcDps = some b ∧
      (∀ cfg ∈ runeConfigs S,
        candidateDps base (modsWithoutRunes mods runeMods) calcDps cfg ≤ b.dps) ∧
      ∃ cfg ∈ runeConfigs S,
        b = ⟨cfg, candidateDps base (modsWithoutRunes mods runeMods) calcDps cfg,
          modsWithRunes (modsWithoutRunes mods runeMods) cfg⟩ := by
  obtain ⟨c, t, hct⟩ := List.exists_cons_of_ne_nil (runeConfigs_ne_nil S hS)
  unfold computeBestRuneVariant
  rw [if_neg (by omega), hct, List.foldl_cons, runeStep_none]
  obtain ⟨b', hfold, hle, hall, hprov⟩ :=
    foldl_runeStep_some base (modsWithoutRunes mods runeMods) calcDps t
      ⟨c, candidateDps base (modsWithoutRunes mods runeMods) calcDps c,
        modsWithRunes (modsWithoutRunes mods runeMods) c⟩
  refine ⟨b', hfold, ?_, ?_⟩
  · intro cfg hcfg
    rcases List.mem_cons.mp hcfg with rfl | hm
    · exact hle
    · exact hall cfg hm
  · rcases hprov with rfl | ⟨cfg, hm, rfl⟩
    · exact ⟨c, List.mem_cons_self c t, rfl⟩
    · exact ⟨cfg, List.mem_cons_of_mem c hm, rfl⟩

end PoeEval

/-!
## Claim theorems
-/

namespace PoeEval

/-- Claim C1, counterexample.  The claim fails as stated: `calcWeaponDps`
returns no elemental range fields, so reverse-engineering its output loses
every non-zero elemental base stat, and with `increasedAttackSpeed = -100`
(which keeps `physScale = 1 > 0`) the attack rate is not recovered either.
Concretely, base fire 50-50 comes back as 0 and base APS 1 comes back as 0,
both far outside the 0.01 tolerance. -/
theorem roundtrip_claim_counterexample :
    (0 : ℚ) < (1 + (0 : ℚ) / 100) * (1 + (0 : ℚ) / 100) ∧
    ¬ (|(reverseEngineerBase (outputAsFinal (calcWeaponDps (inputsOf
          { basePhysMin := 1, basePhysMax := 1, baseAps := 1,
            baseFireMin := 50, baseFireMax := 50 }
          { increasedAttackSpeed := -100 })))
          { increasedAttackSpeed := -100 }).baseFireMin -
        (50 : ℚ)| ≤ 1 / 100) ∧
    ¬ (|(reverseEngineerBase (outputAsFinal (calcWeaponDps (inputsOf
          { basePhysMin := 1, basePhysMax := 1, baseAps := 1,
            baseFireMin := 50, baseFireMax := 50 }
          { increasedAttackSpeed := -100 })))
          { increasedAttackSpeed := -100 }).baseAps -
        (1 : ℚ)| ≤ 1 / 100) := by
  norm_num [reverseEngineerBase, outputAsFinal, calcWeaponDps, inputsOf]

/-- Claim C1, amended. With `physScale > 0` and a non-zero attack-speed scale,
the round trip `reverseEngineerBase ∘ calcWeaponDps` recovers exactly (hence
within any tolerance) the three base fields that `calcWeaponDps` actually
returns: physical min, physical max and attack rate.  The elemental base
fields are not present in the forward output and are not recovered. -/
theorem roundtrip_recovers_phys_and_aps (base : BaseWeaponStats) (mods : KnownModifiers)
    (hscale : 0 < (1 + mods.increasedPhys / 100) * (1 + mods.quality / 100))
    (haps : (1 : ℚ) + mods.increasedAttackSpeed / 100 ≠ 0) :
    (reverseEngineerBase (outputAsFinal (calcWeaponDps (inputsOf base mods))) mods).basePhysMin
        = base.basePhysMin ∧
    (reverseEngineerBase (outputAsFinal (calcWeaponDps (inputsOf base mods))) mods).basePhysMax
        = base.basePhysMax ∧
    (reverseEngineerBase (outputAsFinal (calcWeaponDps (inputsOf base mods))) mods).baseAps
        = base.baseAps := by
  have hne : (1 + mods.increasedPhys / 100) * (1 + mods.quality / 100) ≠ 0 := ne_of_gt hscale
  have hP : ∀ x : ℚ, x * (1 + mods.increasedPhys / 100) * (1 + mods.quality / 100) /
      ((1 + mods.increasedPhys / 100) * (1 + mods.quality / 100)) = x := by
    intro x
    rw [mul_assoc]
    exact mul_div_cancel_right₀ x hne
  refine ⟨?_, ?_, ?_⟩
  · simp only [reverseEngineerBase, outputAsFinal, calcWeaponDps, inputsOf]
    rw [hP]
    ring
  · simp only [reverseEngineerBase, outputAsFinal, calcWeaponDps, inputsOf]
    rw [hP]
    ring
  · simp only [reverseEngineerBase, outputAsFinal, calcWeaponDps, inputsOf]
    rw [mul_div_cancel_right₀ base.baseAps haps]

/-- Claim C1, witness: the amended round trip at base 10-20 phys, 1 APS, with
+50% physical and +20% quality. -/
theorem roundtrip_recovers_phys_and_aps_witness :
    ((0 : ℚ) < (1 + ({ increasedPhys := 50, quality := 20 } : KnownModifiers).increasedPhys / 100) *
        (1 + ({ increasedPhys := 50, quality := 20 } : KnownModifiers).quality / 100)) ∧
    ((1 : ℚ) + ({ increasedPhys := 50, quality := 20 } : KnownModifiers).increasedAttackSpeed / 100 ≠ 0) ∧
    ((reverseEngineerBase (outputAsFinal (calcWeaponDps (inputsOf
        { basePhysMin := 10, basePhysMax := 20, baseAps := 1 }
        { increasedPhys := 50, quality := 20 })))
        { increasedPhys := 50, quality := 20 }).basePhysMin
          = ({ basePhysMin := 10, basePhysMax := 20, baseAps := 1 } : BaseWeaponStats).basePhysMin ∧
      (reverseEngineerBase (outputAsFinal (calcWeaponDps (inputsOf
        { basePhysMin := 10, basePhysMax := 20, baseAps := 1 }
        { increasedPhys := 50, quality := 20 })))
        { increasedPhys := 50, quality := 20 }).basePhysMax
          = ({ basePhysMin := 10, basePhysMax := 20, baseAps := 1 } : BaseWeaponStats).basePhysMax ∧
      (reverseEngineerBase (outputAsFinal (calcWeaponDps (inputsOf
        { basePhysMin := 10, basePhysMax := 20, baseAps := 1 }
        { increasedPhys := 50, quality := 20 })))
        { increasedPhys := 50, quality := 20 }).baseAps
          = ({ basePhysMin := 10, basePhysMax := 20, baseAps := 1 } : BaseWeaponStats).baseAps) :=
  ⟨by norm_num, by norm_num,
    roundtrip_recovers_phys_and_aps
      { basePhysMin := 10, basePhysMax := 20, baseAps := 1 }
      { increasedPhys := 50, quality := 20 } (by norm_num) (by norm_num)⟩

/-- Claim C3, confirmed.  `calcWeaponDps` computes: physical range =
(base + flat) × (1 + increasedPhys/100) × (1 + quality/100) with quality the
last multiplicative step; attack rate = base × (1 + increasedAttackSpeed/100);
elemental contribution = flat-plus-base averages with no multiplier; and
totalDps = (physical per-hit average + elemental per-hit averages) × attack
rate. -/
theorem calc_weapon_dps_order_of_operations (input : WeaponInputs) :
    (calcWeaponDps input).physMin =
        (input.basePhysMin + input.flatPhysMin) * (1 + input.increasedPhys / 100) *
          (1 + input.quality / 100) ∧
    (calcWeaponDps input).physMax =
        (input.basePhysMax + input.flatPhysMax) * (1 + input.increasedPhys / 100) *
          (1 + input.quality / 100) ∧
    (calcWeaponDps input).aps = input.baseAps * (1 + input.increasedAttackSpeed / 100) ∧
    (calcWeaponDps input).eleDps =
        (((input.baseFireMin + input.flatFireMin) + (input.baseFireMax + input.flatFireMax)) / 2 +
          ((input.baseColdMin + input.flatColdMin) + (input.baseColdMax + input.flatColdMax)) / 2 +
          ((input.baseLightningMin + input.flatLightningMin) +
            (input.baseLightningMax + input.flatLightningMax)) / 2 +
          ((input.baseChaosMin + input.flatChaosMin) + (input.baseChaosMax + input.flatChaosMax)) / 2) *
          (calcWeaponDps input).aps ∧
    (calcWeaponDps input).totalDps =
        ((calcWeaponDps input).physMin + (calcWeaponDps input).physMax) / 2 *
            (calcWeaponDps input).aps +
          (((input.baseFireMin + input.flatFireMin) + (input.baseFireMax + input.flatFireMax)) / 2 +
            ((input.baseColdMin + input.flatColdMin) + (input.baseColdMax + input.flatColdMax)) / 2 +
            ((input.baseLightningMin + input.flatLightningMin) +
              (input.baseLightningMax + input.flatLightningMax)) / 2 +
            ((input.baseChaosMin + input.flatChaosMin) + (input.baseChaosMax + input.flatChaosMax)) / 2) *
            (calcWeaponDps input).aps := by
  refine ⟨?_, ?_, ?_, ?_, ?_⟩ <;> simp only [calcWeaponDps] <;> try ring

/-- Claim C4, counterexample.  With `increasedPhys = -200` the denominator
`physScale = -1` is negative, yet `reverseEngineerBase` signals nothing: it
returns the ordinary record obtained by dividing by the negative scale.  No
`InconsistentModifiers` outcome exists anywhere in the function. -/
theorem reverse_negative_scale_counterexample :
    ((1 + (-200 : ℚ) / 100) * (1 + (0 : ℚ) / 100) < 0) ∧
    reverseEngineerBase { physMin := 100, physMax := 100, aps := 1 }
        { increasedPhys := -200 } =
      { basePhysMin := -100, basePhysMax := -100, baseAps := 1 } := by
  constructor
  · norm_num
  · norm_num [reverseEngineerBase, BaseWeaponStats.mk.injEq]

/-- Claim C4, amended.  `reverseEngineerBase` performs no validity check on
`physScale`: even when the scale is negative it returns the ordinary
`BaseWeaponStats` record produced by the same division formula as in the
well-behaved case, with no distinct error signal. -/
theorem reverse_no_inconsistent_signal (f : FinalWeaponStats) (m : KnownModifiers)
    (_hneg : (1 + m.increasedPhys / 100) * (1 + m.quality / 100) < 0) :
    reverseEngineerBase f m =
      { basePhysMin := f.physMin / ((1 + m.increasedPhys / 100) * (1 + m.quality / 100)) -
          m.flatPhysMin
        basePhysMax := f.physMax / ((1 + m.increasedPhys / 100) * (1 + m.quality / 100)) -
          m.flatPhysMax
        baseAps := f.aps / (1 + m.increasedAttackSpeed / 100)
        baseFireMin := f.fireMin - m.flatFireMin
        baseFireMax := f.fireMax - m.flatFireMax
        baseColdMin := f.coldMin - m.flatColdMin
        baseColdMax := f.coldMax - m.flatColdMax
        baseLightningMin := f.lightningMin - m.flatLightningMin
        baseLightningMax := f.lightningMax - m.flatLightningMax
        baseChaosMin := f.chaosMin - m.flatChaosMin
        baseChaosMax := f.chaosMax - m.flatChaosMax } := rfl

/-- Claim C4, witness: the no-check behaviour at a concrete degenerate input
with `physScale = -1`. -/
theorem reverse_no_inconsistent_signal_witness :
    ((1 + ({ increasedPhys := -200 } : KnownModifiers).increasedPhys / 100) *
        (1 + ({ increasedPhys := -200 } : KnownModifiers).quality / 100) < 0) ∧
    reverseEngineerBase { physMin := 200, physMax := 300, aps := 2 }
        { increasedPhys := -200 } =
      { basePhysMin := ({ physMin := 200, physMax := 300, aps := 2 } : FinalWeaponStats).physMin /
          ((1 + ({ increasedPhys := -200 } : KnownModifiers).increasedPhys / 100) *
            (1 + ({ increasedPhys := -200 } : KnownModifiers).quality / 100)) -
          ({ increasedPhys := -200 } : KnownModifiers).flatPhysMin
        basePhysMax := ({ physMin := 200, physMax := 300, aps := 2 } : FinalWeaponStats).physMax /
          ((1 + ({ increasedPhys := -200 } : KnownModifiers).increasedPhys / 100) *
            (1 + ({ increasedPhys := -200 } : KnownModifiers).quality / 100)) -
          ({ increasedPhys := -200 } : KnownModifiers).flatPhysMax
        baseAps := ({ physMin := 200, physMax := 300, aps := 2 } : FinalWeaponStats).aps /
          (1 + ({ increasedPhys := -200 } : KnownModifiers).increasedAttackSpeed / 100)
        baseFireMin := ({ physMin := 200, physMax := 300, aps := 2 } : FinalWeaponStats).fireMin -
          ({ increasedPhys := -200 } : KnownModifiers).flatFireMin
        baseFireMax := ({ physMin := 200, physMax := 300, aps := 2 } : FinalWeaponStats).fireMax -
          ({ increasedPhys := -200 } : KnownModifiers).flatFireMax
        baseColdMin := ({ physMin := 200, physMax := 300, aps := 2 } : FinalWeaponStats).coldMin -
          ({ increasedPhys := -200 } : KnownModifiers).flatColdMin
        baseColdMax := ({ physMin := 200, physMax := 300, aps := 2 } : FinalWeaponStats).coldMax -
          ({ increasedPhys := -200 } : KnownModifiers).flatColdMax
        baseLightningMin := ({ physMin := 200, physMax := 300, aps := 2 } : FinalWeaponStats).lightningMin -
          ({ increasedPhys := -200 } : KnownModifiers).flatLightningMin
        baseLightningMax := ({ physMin := 200, physMax := 300, aps := 2 } : FinalWeaponStats).lightningMax -
          ({ increasedPhys := -200 } : KnownModifiers).flatLightningMax
        baseChaosMin := ({ physMin := 200, physMax := 300, aps := 2 } : FinalWeaponStats).chaosMin -
          ({ increasedPhys := -200 } : KnownModifiers).flatChaosMin
        baseChaosMax := ({ physMin := 200, physMax := 300, aps := 2 } : FinalWeaponStats).chaosMax -
          ({ increasedPhys := -200 } : KnownModifiers).flatChaosMax } :=
  ⟨by norm_num,
    reverse_no_inconsistent_signal { physMin := 200, physMax := 300, aps := 2 }
      { increasedPhys := -200 } (by norm_num)⟩

/-- Claim C2, counterexample.  The optimizer only enumerates configurations
that fill every socket, so it can be beaten by a legal configuration that
leaves sockets empty.  With base 100-100 physical and base APS −1 (the spec
explicitly propagates pathological negative DPS), one socket, and empty
modifiers, the optimizer returns the all-quipolatl fill with DPS −105, while
the legal empty configuration (total count 0 ≤ 1) has DPS −100 > −105. -/
theorem optimizer_skips_partial_fill_counterexample :
    ∃ b, computeBestRuneVariant { basePhysMin := 100, basePhysMax := 100, baseAps := -1 }
        {} {} 1 calcWeaponDps = some b ∧
      b.dps = -105 ∧
      (calcWeaponDps (inputsOf { basePhysMin := 100, basePhysMax := 100, baseAps := -1 }
          (modsWithRunes (modsWithoutRunes {} {}) ⟨0, 0, 0, 0⟩))).totalDps = -100 ∧
      b.dps < -100 := by
  have h : runeConfigs 1 = [⟨0, 0, 0, 1⟩, ⟨1, 0, 0, 0⟩, ⟨0, 1, 0, 0⟩, ⟨0, 0, 1, 0⟩] := by rfl
  rw [computeBestRuneVariant]
  rw [if_neg (by norm_num)]
  rw [h]
  norm_num [runeStep, candidateDps, modsWithRunes, modsWithoutRunes, applyRuneToMods,
    inputsOf, calcWeaponDps, greaterIron, thaneSummer, thaneSpring, quipolatl]

/-- Claim C2, amended.  For every socket count `S ≥ 1` the optimizer returns a
result whose DPS is greatest among all legal configurations that use exactly
`S` runes (each flat-elemental rune at most once) — the enumerated space fills
every socket, so dominance over partially-filled configurations is not
guaranteed for pathological (negative-DPS) inputs.  For `S = 0` it returns
`none`. -/
theorem optimizer_optimal_among_full_configs (base : BaseWeaponStats)
    (mods runeMods : KnownModifiers) (S : ℕ) (cfg : RuneConfiguration)
    (hS : 1 ≤ S) (hspring : cfg.spring ≤ 1) (hsummer : cfg.summer ≤ 1)
    (hsum : cfg.iron + cfg.summer + cfg.spring + cfg.quip = S) :
    (∃ b, computeBestRuneVariant base mods runeMods S calcWeaponDps = some b ∧
      candidateDps base (modsWithoutRunes mods runeMods) calcWeaponDps cfg ≤ b.dps) ∧
    computeBestRuneVariant base mods runeMods 0 calcWeaponDps = none := by
  constructor
  · obtain ⟨b, hb, hall, _⟩ :=
      computeBestRuneVariant_spec base mods runeMods S calcWeaponDps hS
    exact ⟨b, hb, hall cfg (mem_runeConfigs S cfg hspring hsummer hsum)⟩
  · rfl

/-- Claim C2, witness: one socket, the single-iron configuration, on a plain
100-100 / 1 APS base. -/
theorem optimizer_optimal_among_full_configs_witness :
    ((1 : ℕ) ≤ 1) ∧
    ((⟨1, 0, 0, 0⟩ : RuneConfiguration).spring ≤ 1) ∧
    ((⟨1, 0, 0, 0⟩ : RuneConfiguration).summer ≤ 1) ∧
    ((⟨1, 0, 0, 0⟩ : RuneConfiguration).iron + (⟨1, 0, 0, 0⟩ : RuneConfiguration).summer +
        (⟨1, 0, 0, 0⟩ : RuneConfiguration).spring + (⟨1, 0, 0, 0⟩ : RuneConfiguration).quip = 1) ∧
    ((∃ b, computeBestRuneVariant { basePhysMin := 100, basePhysMax := 100, baseAps := 1 }
        {} {} 1 calcWeaponDps = some b ∧
      candidateDps { basePhysMin := 100, basePhysMax := 100, baseAps := 1 }
          (modsWithoutRunes {} {}) calcWeaponDps ⟨1, 0, 0, 0⟩ ≤ b.dps) ∧
    computeBestRuneVariant { basePhysMin := 100, basePhysMax := 100, baseAps := 1 }
        {} {} 0 calcWeaponDps = none) :=
  ⟨le_refl 1, by decide, by decide, by decide,
    optimizer_optimal_among_full_configs
      { basePhysMin := 100, basePhysMax := 100, baseAps := 1 } {} {} 1
      ⟨1, 0, 0, 0⟩ (le_refl 1) (by decide) (by decide) (by decide)⟩

/-- Claim C5, counterexample.  On the spec's own scenario (2 sockets, empty
non-rune modifiers, base 100-100 physical, base APS 1) the optimizer does
*not* choose two Greater Iron runes for DPS 136: the two flat-elemental runes
add (23+34)/2 + (1+60)/2 = 59 average damage, beating the 36% physical
increase, so the chosen configuration has no iron rune and DPS 159 ≠ 136. -/
theorem two_socket_scenario_counterexample :
    ∃ b, computeBestRuneVariant { basePhysMin := 100, basePhysMax := 100, baseAps := 1 }
        {} {} 2 calcWeaponDps = some b ∧
      b.config.iron = 0 ∧ b.dps ≠ 136 := by
  have h : runeConfigs 2 =
      [⟨0, 0, 0, 2⟩, ⟨1, 0, 0, 1⟩, ⟨2, 0, 0, 0⟩,
       ⟨0, 1, 0, 1⟩, ⟨1, 1, 0, 0⟩,
       ⟨0, 0, 1, 1⟩, ⟨1, 0, 1, 0⟩,
       ⟨0, 1, 1, 0⟩] := by rfl
  rw [computeBestRuneVariant]
  rw [if_neg (by norm_num)]
  rw [h]
  norm_num [runeStep, candidateDps, modsWithRunes, modsWithoutRunes, applyRuneToMods,
    inputsOf, calcWeaponDps, greaterIron, thaneSummer, thaneSpring, quipolatl]

/-- Claim C5, amended.  In the 2-socket scenario the optimizer's best
configuration is one Rune of Summer plus one Rune of Spring (iron 0, summer 1,
spring 1, quip 0), with total DPS (100 + 28.5 + 30.5) × 1.0 = 159. -/
theorem two_socket_scenario_best_is_elemental :
    ∃ b, computeBestRuneVariant { basePhysMin := 100, basePhysMax := 100, baseAps := 1 }
        {} {} 2 calcWeaponDps = some b ∧
      b.config = ⟨0, 1, 1, 0⟩ ∧ b.dps = 159 := by
  have h : runeConfigs 2 =
      [⟨0, 0, 0, 2⟩, ⟨1, 0, 0, 1⟩, ⟨2, 0, 0, 0⟩,
       ⟨0, 1, 0, 1⟩, ⟨1, 1, 0, 0⟩,
       ⟨0, 0, 1, 1⟩, ⟨1, 0, 1, 0⟩,
       ⟨0, 1, 1, 0⟩] := by rfl
  rw [computeBestRuneVariant]
  rw [if_neg (by norm_num)]
  rw [h]
  norm_num [runeStep, candidateDps, modsWithRunes, modsWithoutRunes, applyRuneToMods,
    inputsOf, calcWeaponDps, greaterIron, thaneSummer, thaneSpring, quipolatl]

/-- Claim C6, counterexample.  At `S = 2` the enumeration evaluates 8 distinct
configurations, exceeding the claimed bound `2 × (S+1) = 6`. -/
theorem enumeration_exceeds_claimed_bound :
    (runeConfigs 2).length = 8 ∧ (runeConfigs 2).Nodup ∧
      ¬ ((runeConfigs 2).length ≤ 2 * (2 + 1)) := by
  decide

/-- Claim C6, amended.  For every socket count `S ≥ 1` the optimizer's
enumeration evaluates exactly `4 × S` pairwise-distinct configurations (two
binary elemental choices × the sweep over the remaining iron/quipolatl
split). -/
theorem enumeration_size_four_s (S : ℕ) (hS : 1 ≤ S) :
    (runeConfigs S).length = 4 * S ∧ (runeConfigs S).Nodup :=
  ⟨runeConfigs_length S hS, runeConfigs_nodup S⟩

/-- Claim C6, witness: the amended count and distinctness at three sockets. -/
theorem enumeration_size_four_s_witness :
    ((1 : ℕ) ≤ 3) ∧ ((runeConfigs 3).length = 4 * 3 ∧ (runeConfigs 3).Nodup) :=
  ⟨by norm_num, enumeration_size_four_s 3 (by norm_num)⟩

/-- Claim C7, counterexample.  Reverse-engineering the spec's stated
FinalStats {physMin 300, physMax 450, aps 1.2} with increasedPhys 50 and
quality 20 does not recover 200 / 300 / 1.0: physScale is 1.5 × 1.2 = 1.8, so
the code returns basePhysMin = 300/1.8 = 500/3, basePhysMax = 250, and (with
no attack-speed modifier) baseAps = 1.2, not 1.0. -/
theorem forward_reverse_scenario_counterexample :
    (reverseEngineerBase { physMin := 300, physMax := 450, aps := 6/5 }
        { increasedPhys := 50, quality := 20 }).basePhysMin = 500 / 3 ∧
    (reverseEngineerBase { physMin := 300, physMax := 450, aps := 6/5 }
        { increasedPhys := 50, quality := 20 }).basePhysMax = 250 ∧
    (reverseEngineerBase { physMin := 300, physMax := 450, aps := 6/5 }
        { increasedPhys := 50, quality := 20 }).baseAps = 6/5 ∧
    ¬ ((reverseEngineerBase { physMin := 300, physMax := 450, aps := 6/5 }
          { increasedPhys := 50, quality := 20 }).basePhysMin = 200 ∧
        (reverseEngineerBase { physMin := 300, physMax := 450, aps := 6/5 }
          { increasedPhys := 50, quality := 20 }).basePhysMax = 300 ∧
        (reverseEngineerBase { physMin := 300, physMax := 450, aps := 6/5 }
          { increasedPhys := 50, quality := 20 }).baseAps = 1) := by
  norm_num [reverseEngineerBase]

/-- Claim C7, amended.  The forward half is right: with base 200-300, APS 1.2,
increasedPhys 50 and quality 20, the physical per-hit average is 450 and total
DPS is 540 (final range 360-540).  Reverse-engineering the actual forward
output {physMin 360, physMax 540, aps 1.2} with the same modifiers recovers
basePhysMin = 200, basePhysMax = 300 and baseAps = 1.2 (the attack rate is
unchanged because the modifier record has no attack-speed entry). -/
theorem forward_reverse_scenario_corrected :
    ((calcWeaponDps
        { basePhysMin := 200, basePhysMax := 300, baseAps := 6/5,
          increasedPhys := 50, quality := 20 }).physMin +
      (calcWeaponDps
        { basePhysMin := 200, basePhysMax := 300, baseAps := 6/5,
          increasedPhys := 50, quality := 20 }).physMax) / 2 = 450 ∧
    (calcWeaponDps
      { basePhysMin := 200, basePhysMax := 300, baseAps := 6/5,
        increasedPhys := 50, quality := 20 }).physMin = 360 ∧
    (calcWeaponDps
      { basePhysMin := 200, basePhysMax := 300, baseAps := 6/5,
        increasedPhys := 50, quality := 20 }).physMax = 540 ∧
    (calcWeaponDps
      { basePhysMin := 200, basePhysMax := 300, baseAps := 6/5,
        increasedPhys := 50, quality := 20 }).totalDps = 540 ∧
    reverseEngineerBase { physMin := 360, physMax := 540, aps := 6/5 }
        { increasedPhys := 50, quality := 20 } =
      { basePhysMin := 200, basePhysMax := 300, baseAps := 6/5 } := by
  norm_num [calcWeaponDps, reverseEngineerBase, BaseWeaponStats.mk.injEq]

/-- Claim C8, counterexample.  Monotonicity fails on inputs with a negative
physical multiplier: with `increasedPhys = -200` (multiplier −1), raising
`flatPhysMin` from 0 to 1 strictly lowers `totalDps` (−100.5 < −100). -/
theorem monotonicity_counterexample :
    (calcWeaponDps
        { basePhysMin := 100, basePhysMax := 100, baseAps := 1,
          increasedPhys := -200, flatPhysMin := 1 }).totalDps <
      (calcWeaponDps
        { basePhysMin := 100, basePhysMax := 100, baseAps := 1,
          increasedPhys := -200 }).totalDps := by
  norm_num [calcWeaponDps]

/-- Claim C8, amended.  When the multipliers and accumulated damage sums are
non-negative — physical and elemental (base + flat) range sums ≥ 0, base
attack rate ≥ 0, and each percentage ≥ −100 so its multiplier is ≥ 0 —
increasing any single flat or percentage modifier field of `calcWeaponDps`'s
input by `d ≥ 0`, holding all other fields fixed, never decreases the returned
`totalDps`. -/
theorem calc_dps_monotone_in_each_modifier (i : WeaponInputs) (d : ℚ) (hd : 0 ≤ d)
    (hP : 0 ≤ 1 + i.increasedPhys / 100) (hQ : 0 ≤ 1 + i.quality / 100)
    (hA : 0 ≤ i.baseAps) (hS : 0 ≤ 1 + i.increasedAttackSpeed / 100)
    (hF : 0 ≤ i.flatPhysMin + i.basePhysMin + i.flatPhysMax + i.basePhysMax)
    (hE : 0 ≤ (i.baseFireMin + i.flatFireMin + i.baseFireMax + i.flatFireMax) +
        (i.baseColdMin + i.flatColdMin + i.baseColdMax + i.flatColdMax) +
        (i.baseLightningMin + i.flatLightningMin + i.baseLightningMax + i.flatLightningMax) +
        (i.baseChaosMin + i.flatChaosMin + i.baseChaosMax + i.flatChaosMax)) :
    (calcWeaponDps i).totalDps ≤
        (calcWeaponDps { i with flatPhysMin := i.flatPhysMin + d }).totalDps ∧
    (calcWeaponDps i).totalDps ≤
        (calcWeaponDps { i with flatPhysMax := i.flatPhysMax + d }).totalDps ∧
    (calcWeaponDps i).totalDps ≤
        (calcWeaponDps { i with flatFireMin := i.flatFireMin + d }).totalDps ∧
    (calcWeaponDps i).totalDps ≤
        (calcWeaponDps { i with flatFireMax := i.flatFireMax + d }).totalDps ∧
    (calcWeaponDps i).totalDps ≤
        (calcWeaponDps { i with flatColdMin := i.flatColdMin + d }).totalDps ∧
    (calcWeaponDps i).totalDps ≤
        (calcWeaponDps { i with flatColdMax := i.flatColdMax + d }).totalDps ∧
    (calcWeaponDps i).totalDps ≤
        (calcWeaponDps { i with flatLightningMin := i.flatLightningMin + d }).totalDps ∧
    (calcWeaponDps i).totalDps ≤
        (calcWeaponDps { i with flatLightningMax := i.flatLightningMax + d }).totalDps ∧
    (calcWeaponDps i).totalDps ≤
        (calcWeaponDps { i with flatChaosMin := i.flatChaosMin + d }).totalDps ∧
    (calcWeaponDps i).totalDps ≤
        (calcWeaponDps { i with flatChaosMax := i.flatChaosMax + d }).totalDps ∧
    (calcWeaponDps i).totalDps ≤
        (calcWeaponDps { i with increasedPhys := i.increasedPhys + d }).totalDps ∧
    (calcWeaponDps i).totalDps ≤
        (calcWeaponDps { i with quality := i.quality + d }).totalDps ∧
    (calcWeaponDps i).totalDps ≤
        (calcWeaponDps { i with increasedAttackSpeed := i.increasedAttackSpeed + d }).totalDps := by
  have hAA : 0 ≤ i.baseAps * (1 + i.increasedAttackSpeed / 100) := mul_nonneg hA hS
  refine ⟨?_, ?_, ?_, ?_, ?_, ?_, ?_, ?_, ?_, ?_, ?_, ?_, ?_⟩ <;>
      (rw [totalDps_formula, totalDps_formula]; dsimp only)
  · exact dps_mono_aux hF hE hP hQ hAA (by linarith) le_rfl le_rfl le_rfl le_rfl
  · exact dps_mono_aux hF hE hP hQ hAA (by linarith) le_rfl le_rfl le_rfl le_rfl
  · exact dps_mono_aux hF hE hP hQ hAA le_rfl (by linarith) le_rfl le_rfl le_rfl
  · exact dps_mono_aux hF hE hP hQ hAA le_rfl (by linarith) le_rfl le_rfl le_rfl
  · exact dps_mono_aux hF hE hP hQ hAA le_rfl (by linarith) le_rfl le_rfl le_rfl
  · exact dps_mono_aux hF hE hP hQ hAA le_rfl (by linarith) le_rfl le_rfl le_rfl
  · exact dps_mono_aux hF hE hP hQ hAA le_rfl (by linarith) le_rfl le_rfl le_rfl
  · exact dps_mono_aux hF hE hP hQ hAA le_rfl (by linarith) le_rfl le_rfl le_rfl
  · exact dps_mono_aux hF hE hP hQ hAA le_rfl (by linarith) le_rfl le_rfl le_rfl
  · exact dps_mono_aux hF hE hP hQ hAA le_rfl (by linarith) le_rfl le_rfl le_rfl
  · exact dps_mono_aux hF hE hP hQ hAA le_rfl le_rfl (by linarith) le_rfl le_rfl
  · exact dps_mono_aux hF hE hP hQ hAA le_rfl le_rfl le_rfl (by linarith) le_rfl
  · exact dps_mono_aux hF hE hP hQ hAA le_rfl le_rfl le_rfl le_rfl
      (mul_le_mul_of_nonneg_left (by linarith) hA)

/-- Claim C8, witness: the non-negative hypotheses and the first monotonicity
leg at a plain 100-100 / 1 APS weapon with `d = 5`. -/
theorem calc_dps_monotone_witness :
    ((0 : ℚ) ≤ 5) ∧
    ((0 : ℚ) ≤ 1 + ({ basePhysMin := 100, basePhysMax := 100, baseAps := 1 } :
        WeaponInputs).increasedPhys / 100) ∧
    ((0 : ℚ) ≤ ({ basePhysMin := 100, basePhysMax := 100, baseAps := 1 } :
        WeaponInputs).baseAps) ∧
    (calcWeaponDps ({ basePhysMin := 100, basePhysMax := 100, baseAps := 1 } :
        WeaponInputs)).totalDps ≤
      (calcWeaponDps { ({ basePhysMin := 100, basePhysMax := 100, baseAps := 1 } :
          WeaponInputs) with
        flatPhysMin := ({ basePhysMin := 100, basePhysMax := 100, baseAps := 1 } :
          WeaponInputs).flatPhysMin + 5 }).totalDps :=
  ⟨by norm_num, by norm_num, by norm_num,
    (calc_dps_monotone_in_each_modifier
      { basePhysMin := 100, basePhysMax := 100, baseAps := 1 } 5
      (by norm_num) (by norm_num) (by norm_num) (by norm_num) (by norm_num)
      (by norm_num) (by norm_num)).1⟩

/-- Claim C9, confirmed.  For every modifier line, `parseModText` fills
`increasedAttackSpeed` from the `<N>% increased Attack Speed` pattern exactly
when the entity-exclusion test (`Companions`, `Minions`, `Allies`, or a
`have <digit>` phrase) does not fire; an excluded line contributes no
`increasedAttackSpeed` value at all. -/
theorem parse_mod_text_attack_speed_exclusion (s : String) :
    (excludedEntity s.data = true → (parseModText s).increasedAttackSpeed = none) ∧
    (excludedEntity s.data = false →
      (parseModText s).increasedAttackSpeed =
        findFirstSome matchIncreasedAttackSpeedAt s.data) := by
  unfold parseModText parseModTextL
  constructor
  · intro h
    cases hm : findFirstSome matchIncreasedAttackSpeedAt s.data <;> simp [hm, h]
  · intro h
    cases hm : findFirstSome matchIncreasedAttackSpeedAt s.data <;> simp [hm, h]

/-- Claim C9, witness: a plain attack-speed line is extracted (value 10) and a
companion line is excluded. -/
theorem parse_mod_text_attack_speed_exclusion_witness :
    excludedEntity sampleAttackSpeedLine.data = false ∧
    (parseModText sampleAttackSpeedLine).increasedAttackSpeed =
      findFirstSome matchIncreasedAttackSpeedAt sampleAttackSpeedLine.data ∧
    findFirstSome matchIncreasedAttackSpeedAt sampleAttackSpeedLine.data = some 10 ∧
    excludedEntity sampleCompanionLine.data = true ∧
    (parseModText sampleCompanionLine).increasedAttackSpeed = none :=
  ⟨by decide,
    (parse_mod_text_attack_speed_exclusion sampleAttackSpeedLine).2 (by decide),
    by decide,
    by decide,
    (parse_mod_text_attack_speed_exclusion sampleCompanionLine).1 (by decide)⟩

/-- Claim C10, confirmed.  For every base-stats record, modifier records,
socket count `S ≥ 1` and any DPS calculator, `computeBestRuneVariant` returns
a result, and the four counts of its configuration (natural numbers, hence
non-negative) sum exactly to `S`: every candidate — including the returned
one — fills every socket. -/
theorem optimizer_fills_all_sockets (base : BaseWeaponStats)
    (mods runeMods : KnownModifiers) (S : ℕ)
    (calcDps : WeaponInputs → WeaponOutputs) (hS : 1 ≤ S) :
    ∃ b, computeBestRuneVariant base mods runeMods S calcDps = some b ∧
      b.config.iron + b.config.summer + b.config.spring + b.config.quip = S := by
  obtain ⟨b, hb, _, cfg, hmem, rfl⟩ :=
    computeBestRuneVariant_spec base mods runeMods S calcDps hS
  exact ⟨_, hb, (sum_of_mem_runeConfigs S cfg hmem).2.2⟩

/-- Claim C10, witness: three sockets on a plain base with the real
calculator. -/
theorem optimizer_fills_all_sockets_witness :
    ((1 : ℕ) ≤ 3) ∧
    ∃ b, computeBestRuneVariant { basePhysMin := 100, basePhysMax := 100, baseAps := 1 }
        {} {} 3 calcWeaponDps = some b ∧
      b.config.iron + b.config.summer + b.config.spring + b.config.quip = 3 :=
  ⟨by norm_num,
    optimizer_fills_all_sockets { basePhysMin := 100, basePhysMax := 100, baseAps := 1 }
      {} {} 3 calcWeaponDps (by norm_num)⟩

end PoeEval
